import Mathlib

/-!
Verification of the session/diagnostics/action core of the browser-mcp
repository.  The TypeScript sources are shallowly embedded: stateful code is
modelled by explicit state passing, page side effects by an explicit trace of
page operations, and fallible code by `Except`.  Timestamps are modelled as
integers (milliseconds).
-/

namespace BrowserMcp

/-! ### Diagnostics buffers (src/session.ts)

`MAX_BUFFER_SIZE` and `addToBuffer` embed lines 8 and 56-61 of
`src/session.ts`: push the entry, then drop the oldest entry (`shift`) when
the length exceeds the cap. -/

def MAX_BUFFER_SIZE : Nat := 100

def addToBuffer {α : Type} (buffer : List α) (entry : α) : List α :=
  if (buffer ++ [entry]).length > MAX_BUFFER_SIZE then (buffer ++ [entry]).drop 1
  else buffer ++ [entry]

/-- The buffer obtained by inserting a whole sequence of entries, oldest
first, starting from the empty buffer. -/
def buildBuffer {α : Type} (entries : List α) : List α :=
  entries.foldl addToBuffer []

/-- The suffix of the last `n` elements of a list (all of it when it is
shorter than `n`). -/
def lastN {α : Type} (n : Nat) (l : List α) : List α :=
  l.drop (l.length - n)

lemma lastN_length {α : Type} (n : Nat) (l : List α) :
    (lastN n l).length = min n l.length := by
  simp [lastN]
  omega

lemma addToBuffer_lastN {α : Type} (l : List α) (x : α) :
    addToBuffer (lastN MAX_BUFFER_SIZE l) x = lastN MAX_BUFFER_SIZE (l ++ [x]) := by
  have hlen : (lastN MAX_BUFFER_SIZE l).length = min MAX_BUFFER_SIZE l.length :=
    lastN_length _ _
  by_cases hsmall : l.length < MAX_BUFFER_SIZE
  · have h0 : l.length - MAX_BUFFER_SIZE = 0 := by omega
    have hLl : lastN MAX_BUFFER_SIZE l = l := by simp [lastN, h0]
    have h1 : (l ++ [x]).length - MAX_BUFFER_SIZE = 0 := by
      simp only [List.length_append, List.length_singleton]
      omega
    have hnot : ¬ (l ++ [x]).length > MAX_BUFFER_SIZE := by
      simp only [List.length_append, List.length_singleton]
      omega
    rw [hLl]
    have hadd : addToBuffer l x = l ++ [x] := by
      rw [addToBuffer, if_neg hnot]
    rw [hadd, lastN, h1, List.drop_zero]
  · have hge : MAX_BUFFER_SIZE ≤ l.length := by omega
    have hfull : (lastN MAX_BUFFER_SIZE l).length = MAX_BUFFER_SIZE := by
      rw [hlen]; omega
    have hgt : (lastN MAX_BUFFER_SIZE l ++ [x]).length > MAX_BUFFER_SIZE := by
      simp only [List.length_append, List.length_singleton, hfull]
      omega
    have hstep : addToBuffer (lastN MAX_BUFFER_SIZE l) x
        = (lastN MAX_BUFFER_SIZE l ++ [x]).drop 1 := by
      rw [addToBuffer, if_pos hgt]
    rw [hstep]
    have hone : 1 ≤ (lastN MAX_BUFFER_SIZE l).length := by rw [hfull]; simp [MAX_BUFFER_SIZE]
    rw [List.drop_append_of_le_length hone]
    have hdd : (lastN MAX_BUFFER_SIZE l).drop 1 = l.drop (l.length - MAX_BUFFER_SIZE + 1) := by
      simp [lastN, List.drop_drop]
    have hgoal : lastN MAX_BUFFER_SIZE (l ++ [x])
        = l.drop (l.length - MAX_BUFFER_SIZE + 1) ++ [x] := by
      have hk : (l ++ [x]).length - MAX_BUFFER_SIZE = l.length - MAX_BUFFER_SIZE + 1 := by
        simp only [List.length_append, List.length_singleton]
        omega
      have hle : l.length - MAX_BUFFER_SIZE + 1 ≤ l.length := by omega
      rw [lastN, hk, List.drop_append_of_le_length hle]
    rw [hdd, hgoal]

lemma buildBuffer_eq_lastN {α : Type} (entries : List α) :
    buildBuffer entries = lastN MAX_BUFFER_SIZE entries := by
  induction entries using List.reverseRecOn with
  | nil => simp [buildBuffer, lastN]
  | append_singleton l x ih =>
      have hfold : buildBuffer (l ++ [x]) = addToBuffer (buildBuffer l) x := by
        simp [buildBuffer]
      rw [hfold, ih, addToBuffer_lastN]

/-- Claim C1: inserting any sequence of entries into a diagnostics buffer
(console or network) keeps the buffer at no more than 100 entries after every
insertion, evicting the oldest entry when the cap would be exceeded, so the
buffer is always exactly the most recent entries in arrival order.  The
statement quantifies over every insertion sequence, hence over every prefix
of a longer sequence, i.e. over the state after each insertion. -/
theorem buffer_cap_fifo {α : Type} (entries : List α) :
    buildBuffer entries = lastN MAX_BUFFER_SIZE entries ∧
    (buildBuffer entries).length ≤ MAX_BUFFER_SIZE ∧
    (buildBuffer entries).length = min MAX_BUFFER_SIZE entries.length := by
  refine ⟨buildBuffer_eq_lastN entries, ?_, ?_⟩
  · rw [buildBuffer_eq_lastN, lastN_length]; omega
  · rw [buildBuffer_eq_lastN, lastN_length]

/-! ### Diagnostics entry types (src/session.ts) -/

/-- `ConsoleEntry` of `src/session.ts`; timestamps are integer
milliseconds. -/
structure ConsoleEntry where
  level : String
  text : String
  url : Option String
  line : Option Nat
  timestamp : Int
deriving DecidableEq

/-- `NetworkEntry` of `src/session.ts`; `status` is set on responses,
`error` on failed requests, `duration` only when a matching pending request
was found. -/
structure NetworkEntry where
  method : String
  url : String
  status : Option Nat
  duration : Option Int
  error : Option String
  timestamp : Int
deriving DecidableEq

/-- `SessionDiagnostics` of `src/session.ts`: the two per-session buffers. -/
structure SessionDiagnostics where
  console : List ConsoleEntry
  network : List NetworkEntry
deriving DecidableEq

/-! ### The diagnostics tool handler

Embeds the `handler` of the diagnostics tool (`type` is one of `console`,
`network`, `all`; `limit` defaults to 50; `clear` defaults to false).
JavaScript `arr.slice(-limit)` is `jsSliceLast`: for `limit = 0` the start
index `-0` is `0`, so the WHOLE array is returned; for `limit ≥ 1` it is the
suffix of the last `min limit length` elements.  JavaScript truthiness of an
optional string (`if (level)`) is `strTruthy`: undefined and the empty
string are falsy. -/

inductive DiagType where
  | console
  | network
  | all
deriving DecidableEq

def jsSliceLast {α : Type} (l : List α) (limit : Nat) : List α :=
  if limit = 0 then l else l.drop (l.length - limit)

def strTruthy : Option String → Bool
  | none => false
  | some s => !(s == "")

/-- The structured result of the diagnostics tool: each buffer kind is
present exactly when the requested `type` selects it. -/
structure DiagnosticsResult where
  console : Option (List ConsoleEntry)
  network : Option (List NetworkEntry)
deriving DecidableEq

/-- The diagnostics tool `handler`, given the session's buffers: returns the
structured result and the buffers as they are after the call (the console
branch runs first, then the network branch; each branch reads its buffer,
applies the level filter (console only), the limit (most-recent-first), and
then clears its buffer when `clear` is set). -/
def diagnosticsHandler (diag : SessionDiagnostics) (type : DiagType)
    (level : Option String) (limit : Nat) (clear : Bool) :
    DiagnosticsResult × SessionDiagnostics :=
  let consoleSelected := type = DiagType.console ∨ type = DiagType.all
  let networkSelected := type = DiagType.network ∨ type = DiagType.all
  let consolePart : Option (List ConsoleEntry) :=
    if consoleSelected then
      let entries :=
        if strTruthy level then
          diag.console.filter (fun e => e.level == level.getD "")
        else diag.console
      some ((jsSliceLast entries limit).reverse)
    else none
  let diag1 :=
    if consoleSelected ∧ clear then { diag with console := [] } else diag
  let networkPart : Option (List NetworkEntry) :=
    if networkSelected then some ((jsSliceLast diag1.network limit).reverse)
    else none
  let diag2 :=
    if networkSelected ∧ clear then { diag1 with network := [] } else diag1
  (⟨consolePart, networkPart⟩, diag2)

lemma jsSliceLast_pos {α : Type} (l : List α) (limit : Nat) (h : 1 ≤ limit) :
    jsSliceLast l limit = lastN limit l := by
  have : ¬ limit = 0 := by omega
  simp [jsSliceLast, lastN, this]

/-- Claim C2 (amended to positive limits): reading diagnostics with a
requested limit `N ≥ 1` returns exactly `min N (buffer size)` entries for
each selected buffer, ordered most-recent-first (the reversal of the
buffer's suffix of the last `min N size` entries); in particular never more
than `N` entries, and never more than the buffer contents. -/
theorem diagnostics_read_limit (diag : SessionDiagnostics) (limit : Nat)
    (h : 1 ≤ limit) :
    ((diagnosticsHandler diag DiagType.all none limit false).1.console
        = some ((lastN limit diag.console).reverse)) ∧
    ((diagnosticsHandler diag DiagType.all none limit false).1.network
        = some ((lastN limit diag.network).reverse)) ∧
    (((diagnosticsHandler diag DiagType.all none limit false).1.console.getD []).length
        = min limit diag.console.length) ∧
    (((diagnosticsHandler diag DiagType.all none limit false).1.network.getD []).length
        = min limit diag.network.length) := by
  refine ⟨?_, ?_, ?_, ?_⟩ <;>
    simp [diagnosticsHandler, strTruthy, jsSliceLast_pos _ _ h, lastN_length]

/-- Witness for C2 at a concrete buffer and limit. -/
theorem diagnostics_read_limit_witness :
    ((diagnosticsHandler
        ⟨[⟨"log", "a", none, none, 0⟩, ⟨"log", "b", none, none, 1⟩], []⟩
        DiagType.all none 1 false).1.console
      = some [⟨"log", "b", none, none, 1⟩]) := by
  have h := diagnostics_read_limit
    ⟨[⟨"log", "a", none, none, 0⟩, ⟨"log", "b", none, none, 1⟩], []⟩ 1 (by decide)
  rw [h.1]
  decide

/-- Counterexample for C2 as stated: with requested limit `N = 0` the code
returns the whole buffer (JavaScript `slice(-0)` is `slice(0)`), so a
one-entry buffer yields 1 entry, not `min 0 1 = 0`. -/
theorem diagnostics_read_limit_zero_cex :
    ¬ (((diagnosticsHandler
          ⟨[], [⟨"GET", "https://a.example", some 200, none, none, 0⟩]⟩
          DiagType.network none 0 false).1.network.getD []).length
        = min 0 1) := by
  decide

/-- Claim C3: a diagnostics call with `clear = true` returns exactly what
the same call without clearing would return (the pre-clear contents), empties
exactly the buffer kinds selected by `type` (leaving the other kind
untouched), and a subsequent read of a cleared kind returns no entries. -/
theorem diagnostics_clear_atomic (diag : SessionDiagnostics)
    (type : DiagType) (level : Option String) (limit : Nat) :
    ((diagnosticsHandler diag type level limit true).1
        = (diagnosticsHandler diag type level limit false).1) ∧
    (type = DiagType.console →
      (diagnosticsHandler diag type level limit true).2
        = { diag with console := [] }) ∧
    (type = DiagType.network →
      (diagnosticsHandler diag type level limit true).2
        = { diag with network := [] }) ∧
    (type = DiagType.all →
      (diagnosticsHandler diag type level limit true).2
        = ⟨[], []⟩) ∧
    (type = DiagType.all →
      (diagnosticsHandler
          (diagnosticsHandler diag type level limit true).2
          type level limit false).1
        = ⟨some [], some []⟩) := by
  cases type <;>
    refine ⟨?_, ?_, ?_, ?_, ?_⟩ <;>
    simp [diagnosticsHandler, jsSliceLast]

/-- Witness for C3 at a concrete pair of buffers: a read-and-clear call of
type `all` returns what a plain read would, leaves both buffers empty, and a
subsequent read returns no entries. -/
theorem diagnostics_clear_atomic_witness :
    ((diagnosticsHandler
        ⟨[⟨"error", "boom", none, none, 0⟩],
         [⟨"GET", "https://a.example", some 200, none, none, 1⟩]⟩
        DiagType.all none 5 true).1
      = (diagnosticsHandler
        ⟨[⟨"error", "boom", none, none, 0⟩],
         [⟨"GET", "https://a.example", some 200, none, none, 1⟩]⟩
        DiagType.all none 5 false).1) ∧
    ((diagnosticsHandler
        ⟨[⟨"error", "boom", none, none, 0⟩],
         [⟨"GET", "https://a.example", some 200, none, none, 1⟩]⟩
        DiagType.all none 5 true).2 = ⟨[], []⟩) ∧
    ((diagnosticsHandler
        (diagnosticsHandler
          ⟨[⟨"error", "boom", none, none, 0⟩],
           [⟨"GET", "https://a.example", some 200, none, none, 1⟩]⟩
          DiagType.all none 5 true).2
        DiagType.all none 5 false).1 = ⟨some [], some []⟩) := by
  have h := diagnostics_clear_atomic
    ⟨[⟨"error", "boom", none, none, 0⟩],
     [⟨"GET", "https://a.example", some 200, none, none, 1⟩]⟩
    DiagType.all none 5
  exact ⟨h.1, h.2.2.2.1 rfl, h.2.2.2.2 rfl⟩

/-! ### Session registry and shared engine lifecycle (src/session.ts)

The module-level mutable state (`browser`, `sessions`) is modelled by an
explicit `RegistryState`.  Browser handles and pages are identified by
numeric ids drawn from counters, so "the same handle is reused" and "a new
page was created" are expressible.  `ensureBrowser` launches a browser
exactly when no live handle is held (a held handle is modelled as connected;
engine crashes are outside the model).  The awaited engine calls that follow
the duplicate check (`newPage`, `setViewportSize`, `goto`) can each throw;
whether they do is the environment's choice, passed to `openSession` as an
explicit `OpenEnv` outcome, so the error paths that leave the engine
launched with the session unregistered are part of the model. -/

structure RegistryState where
  browser : Option Nat
  nextBrowserId : Nat
  sessions : List (String × Nat)
  nextPageId : Nat
deriving DecidableEq

/-- The state at module load: no browser, no sessions. -/
def initialRegistry : RegistryState := ⟨none, 0, [], 0⟩

/-- `ensureBrowser`: reuse the live handle, otherwise launch a fresh one. -/
def ensureBrowser (s : RegistryState) : Nat × RegistryState :=
  match s.browser with
  | some b => (b, s)
  | none =>
      (s.nextBrowserId,
       { s with browser := some s.nextBrowserId,
                nextBrowserId := s.nextBrowserId + 1 })

/-- The environment's verdict on the engine calls of one open attempt:
after `ensureBrowser`, the source awaits `newPage` (and `setViewportSize`)
and then `goto`; each can throw an engine error.  `newPageThrows` covers a
throw before a page exists, `gotoThrows` a throw after the page was created
(the page is then never registered and never closed — it leaks). -/
inductive OpenEnv where
  | ok
  | newPageThrows (msg : String)
  | gotoThrows (msg : String)
deriving DecidableEq

/-- `openSession`: fail on a duplicate name before touching anything;
otherwise ensure the browser FIRST, then create the page and navigate —
either of which the environment may make throw, propagating the error with
the engine already launched and the session not registered — and finally
register the session.  The duplicate error message follows the source (the
quotes around the name are dropped).  The `url` argument is only used for
the page navigation effect, which is outside the registry state. -/
def openSession (name url : String) (env : OpenEnv) (s : RegistryState) :
    Except String Nat × RegistryState :=
  if (List.lookup name s.sessions).isSome then
    (Except.error ("Session " ++ name ++ " already exists"), s)
  else
    let s1 := (ensureBrowser s).2
    match env with
    | OpenEnv.newPageThrows msg => (Except.error msg, s1)
    | OpenEnv.gotoThrows msg =>
        (Except.error msg, { s1 with nextPageId := s1.nextPageId + 1 })
    | OpenEnv.ok =>
        (Except.ok s1.nextPageId,
         { s1 with nextPageId := s1.nextPageId + 1,
                   sessions := s1.sessions ++ [(name, s1.nextPageId)] })

/-- `closeSession`: unknown name is a no-op returning false; otherwise the
session is removed and, when it was the last one, the browser handle is
released. -/
def closeSession (name : String) (s : RegistryState) : Bool × RegistryState :=
  match List.lookup name s.sessions with
  | none => (false, s)
  | some _ =>
      let remaining := s.sessions.filter (fun p => !(p.1 == name))
      if remaining.isEmpty then
        (true, { s with sessions := remaining, browser := none })
      else
        (true, { s with sessions := remaining })

/-- States reachable from module load by open attempts (under any
environment outcome, including failing page creation or navigation) and
close steps. -/
inductive Reachable : RegistryState → Prop where
  | init : Reachable initialRegistry
  | stepOpen (name url : String) (env : OpenEnv) {s : RegistryState} :
      Reachable s → Reachable (openSession name url env s).2
  | stepClose (name : String) {s : RegistryState} :
      Reachable s → Reachable (closeSession name s).2

/-- Claim C4: opening a session under a name that is already bound fails
with the duplicate-session error and leaves the whole registry (existing
sessions, browser handle, id counters — hence no new page) unchanged,
whatever the environment would have done to the later engine calls. -/
theorem open_duplicate_unchanged (name url : String) (env : OpenEnv)
    (s : RegistryState) (h : (List.lookup name s.sessions).isSome) :
    openSession name url env s
      = (Except.error ("Session " ++ name ++ " already exists"), s) := by
  simp [openSession, h]

/-- Witness for C4 at a concrete registry holding a session named a. -/
theorem open_duplicate_unchanged_witness :
    openSession "a" "https://x.example" OpenEnv.ok ⟨some 0, 1, [("a", 0)], 1⟩
      = (Except.error "Session a already exists", ⟨some 0, 1, [("a", 0)], 1⟩) :=
  open_duplicate_unchanged "a" "https://x.example" OpenEnv.ok
    ⟨some 0, 1, [("a", 0)], 1⟩ (by decide)

lemma engine_invariant_open (name url : String) (env : OpenEnv)
    (s : RegistryState)
    (ih : s.sessions ≠ [] → s.browser.isSome = true) :
    (openSession name url env s).2.sessions ≠ []
      → (openSession name url env s).2.browser.isSome = true := by
  by_cases hdup : (List.lookup name s.sessions).isSome
  · simpa [openSession, hdup] using ih
  · cases env <;> cases hb : s.browser <;>
      simp [openSession, hdup, ensureBrowser, hb]

lemma engine_invariant_close (name : String) (s : RegistryState)
    (ih : s.sessions ≠ [] → s.browser.isSome = true) :
    (closeSession name s).2.sessions ≠ []
      → (closeSession name s).2.browser.isSome = true := by
  cases hlk : List.lookup name s.sessions with
  | none => simpa [closeSession, hlk] using ih
  | some p =>
      by_cases he : (s.sessions.filter (fun q => !(q.1 == name))).isEmpty
      · have hrem : s.sessions.filter (fun q => !(q.1 == name)) = [] := by
          simpa [List.isEmpty_iff] using he
        simp [closeSession, hlk, he, hrem]
      · have hrem : s.sessions.filter (fun q => !(q.1 == name)) ≠ [] := by
          simpa [List.isEmpty_iff] using he
        have hsne : s.sessions ≠ [] := by
          intro h0
          rw [h0] at hlk
          simp [List.lookup] at hlk
        simp [closeSession, hlk, he, hrem, ih hsne]

lemma engine_invariant (s : RegistryState) (h : Reachable s) :
    s.sessions ≠ [] → s.browser.isSome = true := by
  induction h with
  | init => simp [initialRegistry]
  | stepOpen name url env hs ih => exact engine_invariant_open name url env _ ih
  | stepClose name hs ih => exact engine_invariant_close name _ ih

/-- Counterexample for C5 as stated: a first open whose navigation throws —
after `ensureBrowser` has already launched the engine — yields a state
reachable by an open step in which the engine handle is live while zero
sessions are open.  So the engine is NOT live only while at least one
session is open. -/
theorem engine_live_without_sessions_cex :
    Reachable (openSession "a" "http://bad.invalid"
        (OpenEnv.gotoThrows "net::ERR_NAME_NOT_RESOLVED") initialRegistry).2 ∧
    (openSession "a" "http://bad.invalid"
        (OpenEnv.gotoThrows "net::ERR_NAME_NOT_RESOLVED")
        initialRegistry).2.browser.isSome = true ∧
    (openSession "a" "http://bad.invalid"
        (OpenEnv.gotoThrows "net::ERR_NAME_NOT_RESOLVED")
        initialRegistry).2.sessions = [] ∧
    (openSession "a" "http://bad.invalid"
        (OpenEnv.gotoThrows "net::ERR_NAME_NOT_RESOLVED")
        initialRegistry).1 = Except.error "net::ERR_NAME_NOT_RESOLVED" :=
  ⟨Reachable.stepOpen "a" "http://bad.invalid"
      (OpenEnv.gotoThrows "net::ERR_NAME_NOT_RESOLVED") Reachable.init,
   by decide, by decide, rfl⟩

/-- Claim C5 (amended): in every state reachable by open attempts and
closes, the engine handle is live whenever at least one session is open —
but only in that direction: an open whose page creation or navigation
throws after the engine was ensured leaves the engine live with the session
unregistered, so the engine may be live with zero open sessions (see the
counterexample).  The rest of the claim holds: the handle does not exist at
module load (lazy start), any open attempt from a state without a live
handle launches it, an open while it is live reuses the same handle,
closing the last open session releases and resets it, and closing an
unknown name is a side-effect-free no-op. -/
theorem engine_lifecycle (s : RegistryState) (h : Reachable s) :
    (s.sessions ≠ [] → s.browser.isSome = true) ∧
    initialRegistry.browser = none ∧
    (∀ name url env, s.browser = none →
      ((openSession name url env s).2).browser = some s.nextBrowserId) ∧
    (∀ name url env b, s.browser = some b →
      ((openSession name url env s).2).browser = some b) ∧
    (∀ name p, s.sessions = [(name, p)] →
      ((closeSession name s).2).browser = none) ∧
    (∀ name, List.lookup name s.sessions = none →
      closeSession name s = (false, s)) := by
  have hinv := engine_invariant s h
  refine ⟨hinv, rfl, ?_, ?_, ?_, ?_⟩
  · intro name url env hb
    have hemp : s.sessions = [] := by
      by_contra hne
      have := hinv hne
      rw [hb] at this
      simp at this
    cases env <;> simp [openSession, hemp, List.lookup, ensureBrowser, hb]
  · intro name url env b hb
    by_cases hdup : (List.lookup name s.sessions).isSome
    · simp [openSession, hdup, hb]
    · cases env <;> simp [openSession, hdup, ensureBrowser, hb]
  · intro name p hsess
    simp [closeSession, hsess, List.lookup]
  · intro name hlk
    simp [closeSession, hlk]

/-- Witness for C5: after one successful open from module load the state is
reachable, a session is open so the engine is live, and closing that last
session releases the engine. -/
theorem engine_lifecycle_witness :
    (openSession "a" "https://x.example" OpenEnv.ok
        initialRegistry).2.browser.isSome = true ∧
    (closeSession "a"
        (openSession "a" "https://x.example" OpenEnv.ok
          initialRegistry).2).2.browser = none := by
  have h := engine_lifecycle _
    (Reachable.stepOpen "a" "https://x.example" OpenEnv.ok Reachable.init)
  exact ⟨h.1 (by decide), h.2.2.2.2.1 "a" 0 (by decide)⟩

/-! ### Network request correlation (src/session.ts)

The `pendingRequests` map (correlation id → start time, method, url) and
the `response` / `requestfailed` observers.  The correlation id stored on
the request object (`_requestId`) is passed explicitly: it is `some id`
when the `request` observer ran for this request and `none` otherwise.
`Date.now()` readings are explicit integer arguments.  Each observer
appends the produced entry with `addToBuffer`; the entry construction and
pending-map update are modelled here, the append is the `addToBuffer` of
claim C1. -/

structure PendingRequest where
  start : Int
  method : String
  url : String
deriving DecidableEq

abbrev PendingMap := List (String × PendingRequest)

/-- `pendingRequests.delete id` (a map holds at most one binding per key;
filtering removes it). -/
def deletePending (m : PendingMap) (id : String) : PendingMap :=
  m.filter (fun p => !(p.1 == id))

/-- The `request` observer: record a pending entry under the synthesized
correlation id (url + start time); a `Map.set` on an existing key
overwrites, modelled by delete-then-add. -/
def onRequest (m : PendingMap) (now : Int) (method url : String) :
    String × PendingMap :=
  let requestId := url ++ "-" ++ toString now
  (requestId, deletePending m requestId ++ [(requestId, ⟨now, method, url⟩)])

/-- The `response` observer: look the pending entry up by the request's
correlation id, emit a NetworkEntry whose duration is present exactly when
the pending entry was found, then delete the pending entry. -/
def onResponse (m : PendingMap) (requestId : Option String) (now : Int)
    (method url : String) (status : Nat) : NetworkEntry × PendingMap :=
  let pending := match requestId with
    | some id => List.lookup id m
    | none => none
  let entry : NetworkEntry :=
    ⟨method, url, some status,
     pending.map (fun p => now - p.start), none, now⟩
  let m1 := match requestId with
    | some id => deletePending m id
    | none => m
  (entry, m1)

/-- The `requestfailed` observer: same correlation logic, but the entry
carries the failure text (or the fallback when the engine supplies none or
an empty string) instead of a status. -/
def onRequestFailed (m : PendingMap) (requestId : Option String) (now : Int)
    (method url : String) (failureText : Option String) :
    NetworkEntry × PendingMap :=
  let pending := match requestId with
    | some id => List.lookup id m
    | none => none
  let errText := if strTruthy failureText then failureText.getD ""
    else "Request failed"
  let entry : NetworkEntry :=
    ⟨method, url, none,
     pending.map (fun p => now - p.start), some errText, now⟩
  let m1 := match requestId with
    | some id => deletePending m id
    | none => m
  (entry, m1)

lemma lookup_deletePending (m : PendingMap) (id : String) :
    List.lookup id (deletePending m id) = none := by
  induction m with
  | nil => rfl
  | cons p rest ih =>
      by_cases hp : p.1 = id
      · have hb : (p.1 == id) = true := beq_iff_eq.mpr hp
        simpa [deletePending, List.filter_cons, hb] using ih
      · have hb : (p.1 == id) = false := beq_eq_false_iff_ne.mpr hp
        have hb2 : (id == p.1) = false := beq_eq_false_iff_ne.mpr (Ne.symm hp)
        simpa [deletePending, List.filter_cons, hb, List.lookup, hb2] using ih

/-- Claim C6: when a request completes (response or failure), the recorded
entry carries duration `now - start` — non-negative whenever the completion
time is not before the recorded start — exactly when a pending entry exists
under the event's correlation id, carries no duration when none exists, and
the pending entry (if any) is removed under that id afterwards. -/
theorem network_completion_duration (m : PendingMap) (id : String)
    (now : Int) (method url : String) (status : Nat)
    (failureText : Option String) :
    (∀ p, List.lookup id m = some p →
      (onResponse m (some id) now method url status).1.duration
          = some (now - p.start) ∧
      (onRequestFailed m (some id) now method url failureText).1.duration
          = some (now - p.start) ∧
      (p.start ≤ now → (0:Int) ≤ now - p.start)) ∧
    (List.lookup id m = none →
      (onResponse m (some id) now method url status).1.duration = none ∧
      (onRequestFailed m (some id) now method url failureText).1.duration
          = none) ∧
    (List.lookup id (onResponse m (some id) now method url status).2
        = none) ∧
    (List.lookup id (onRequestFailed m (some id) now method url failureText).2
        = none) := by
  refine ⟨?_, ?_, ?_, ?_⟩
  · intro p hp
    refine ⟨by simp [onResponse, hp], by simp [onRequestFailed, hp], ?_⟩
    intro hle
    omega
  · intro hnone
    exact ⟨by simp [onResponse, hnone], by simp [onRequestFailed, hnone]⟩
  · simpa [onResponse] using lookup_deletePending m id
  · simpa [onRequestFailed] using lookup_deletePending m id

/-- Witness for C6 at a concrete pending map and completion time. -/
theorem network_completion_duration_witness :
    (onResponse [("u-3", ⟨3, "GET", "u"⟩)] (some "u-3") 10 "GET" "u" 200).1.duration
        = some 7 ∧
    (0:Int) ≤ 10 - 3 ∧
    List.lookup "u-3"
      (onResponse [("u-3", ⟨3, "GET", "u"⟩)] (some "u-3") 10 "GET" "u" 200).2
        = none := by
  have h := network_completion_duration [("u-3", ⟨3, "GET", "u"⟩)] "u-3" 10
    "GET" "u" 200 none
  have h1 := h.1 ⟨3, "GET", "u"⟩ (by decide)
  exact ⟨h1.1, h1.2.2 (by decide), h.2.2.1⟩

/-! ### SequenceRunner -/

/-- A step's outcome as seen by the runner: it either succeeds or it fails
(a thrown error or a false/erroring assertion, with its message). -/
inductive StepOutcome where
  | ok
  | err (msg : String)
deriving DecidableEq

/-- The structured record a run produces. -/
structure SequenceResult where
  success : Bool
  completed : Nat
  total : Nat
deriving DecidableEq

/-- Modelled from the spec: the SequenceRunner component is not among the
provided source files.  Per the spec, steps execute strictly in declared
order, any step failure ends the run (remaining steps are not attempted),
`completed` counts the steps actually attempted including the failing one,
and a failure is converted into the result record rather than escaping.
Each step is abstracted by its outcome; the fold returns the number of
attempted steps and whether all of them succeeded. -/
def runSteps : List StepOutcome → Nat × Bool
  | [] => (0, true)
  | StepOutcome.ok :: rest => ((runSteps rest).1 + 1, (runSteps rest).2)
  | StepOutcome.err _ :: _ => (1, false)

/-- Modelled from the spec: the full run record, with `total` the declared
number of steps. -/
def runSequence (steps : List StepOutcome) : SequenceResult :=
  ⟨(runSteps steps).2, (runSteps steps).1, steps.length⟩

/-- Modelled from the spec: the steps the runner actually attempts are
exactly the first `completed` ones. -/
def attemptedSteps (steps : List StepOutcome) : List StepOutcome :=
  steps.take (runSteps steps).1

lemma runSteps_first_err (steps : List StepOutcome) (k : Nat) (msg : String)
    (hk : steps.get? k = some (StepOutcome.err msg))
    (hprev : ∀ i, i < k → steps.get? i = some StepOutcome.ok) :
    runSteps steps = (k + 1, false) := by
  induction steps generalizing k with
  | nil => simp at hk
  | cons s rest ih =>
      cases s with
      | ok =>
          cases k with
          | zero => simp at hk
          | succ j =>
              have hk2 : rest.get? j = some (StepOutcome.err msg) := by
                simpa using hk
              have hprev2 : ∀ i, i < j → rest.get? i = some StepOutcome.ok := by
                intro i hi
                have := hprev (i + 1) (by omega)
                simpa using this
              have := ih j hk2 hprev2
              simp [runSteps, this]
      | err m =>
          cases k with
          | zero => simp [runSteps]
          | succ j =>
              have := hprev 0 (by omega)
              simp at this

lemma runSteps_all_ok (steps : List StepOutcome)
    (h : ∀ i, i < steps.length → steps.get? i = some StepOutcome.ok) :
    runSteps steps = (steps.length, true) := by
  induction steps with
  | nil => rfl
  | cons s rest ih =>
      have h0 := h 0 (by simp)
      cases s with
      | ok =>
          have h2 : ∀ i, i < rest.length → rest.get? i = some StepOutcome.ok := by
            intro i hi
            have := h (i + 1) (by simp; omega)
            simpa using this
          simp [runSteps, ih h2]
      | err m => simp at h0

/-- Claim C7 (spec-modelled): if step `k+1` (0-based index `k`) is the first
to fail, the run yields `completed = k+1`, `total = n`, `success = false`,
and only the first `k+1` steps were attempted (later steps never execute);
no failure escapes the run because `runSequence` is a total function into
result records.  If every step succeeds the run yields `completed = total`
and `success = true`. -/
theorem sequence_short_circuit (steps : List StepOutcome) :
    (∀ k msg, steps.get? k = some (StepOutcome.err msg) →
      (∀ i, i < k → steps.get? i = some StepOutcome.ok) →
      runSequence steps = ⟨false, k + 1, steps.length⟩ ∧
      attemptedSteps steps = steps.take (k + 1)) ∧
    ((∀ i, i < steps.length → steps.get? i = some StepOutcome.ok) →
      runSequence steps = ⟨true, steps.length, steps.length⟩) ∧
    (runSequence steps).completed ≤ (runSequence steps).total := by
  refine ⟨?_, ?_, ?_⟩
  · intro k msg hk hprev
    have h := runSteps_first_err steps k msg hk hprev
    constructor
    · simp [runSequence, h]
    · simp [attemptedSteps, h]
  · intro h
    simp [runSequence, runSteps_all_ok steps h]
  · have hle : ∀ l : List StepOutcome, (runSteps l).1 ≤ l.length := by
      intro l
      induction l with
      | nil => simp [runSteps]
      | cons s rest ih =>
          cases s with
          | ok => simp [runSteps]; omega
          | err m => simp [runSteps]
    simpa [runSequence] using hle steps

/-- Witness for C7: in a five-step sequence whose second step throws, the
run reports 2 of 5 completed without success and attempts only the first
two steps. -/
theorem sequence_short_circuit_witness :
    runSequence [StepOutcome.ok, StepOutcome.err "boom", StepOutcome.ok,
        StepOutcome.ok, StepOutcome.ok] = ⟨false, 2, 5⟩ ∧
    attemptedSteps [StepOutcome.ok, StepOutcome.err "boom", StepOutcome.ok,
        StepOutcome.ok, StepOutcome.ok]
      = [StepOutcome.ok, StepOutcome.err "boom"] := by
  have h := (sequence_short_circuit [StepOutcome.ok, StepOutcome.err "boom",
    StepOutcome.ok, StepOutcome.ok, StepOutcome.ok]).1 1 "boom"
    (by decide) (by decide)
  exact ⟨h.1, h.2⟩

/-! ### ActionExecutor (performAction)

`performAction` dispatches on the action-type tag.  At runtime the tag is a
string and the switch has a default branch for unknown tags, so the tag is
modelled as a `String` with `parseActionType` deciding which case of the
switch matches.  Page side effects are modelled as an explicit trace of
`PageOp`s plus a `PageModel` (current url and title); navigation sets the
model url, while the url resulting from a click/press-triggered navigation
is environment-dependent and is abstracted as the model's current url at
the time `page.url()` is read.  Validation failures and the unknown-type
default throw, modelled as `Except.error` with an empty trace and an
unchanged page. -/

structure PageModel where
  url : String
  title : String
deriving DecidableEq

inductive PageOp where
  | goto (url : String)
  | goBack
  | goForward
  | click (selector : String)
  | waitForLoadState
  | fill (selector value : String)
  | selectOption (selector value : String)
  | check (selector : String)
  | uncheck (selector : String)
  | press (selector key : String)
  | keyboardPress (key : String)
  | scrollBy (selector : Option String) (direction : String)
  | highlight (selector : String)
deriving DecidableEq

structure ActionParams where
  type : String
  selector : Option String
  value : Option String
  url : Option String
deriving DecidableEq

structure ActionResult where
  success : Bool
  action : String
  url : Option String
  title : Option String
  selector : Option String
  direction : Option String
  error : Option String
deriving DecidableEq

inductive ActionType where
  | navigate
  | back
  | forward
  | click
  | fill
  | select
  | check
  | uncheck
  | press
  | scroll
  | highlight
deriving DecidableEq

/-- Which case of the switch a runtime tag string selects (none: the
default branch). -/
def parseActionType (t : String) : Option ActionType :=
  if t == "navigate" then some ActionType.navigate
  else if t == "back" then some ActionType.back
  else if t == "forward" then some ActionType.forward
  else if t == "click" then some ActionType.click
  else if t == "fill" then some ActionType.fill
  else if t == "select" then some ActionType.select
  else if t == "check" then some ActionType.check
  else if t == "uncheck" then some ActionType.uncheck
  else if t == "press" then some ActionType.press
  else if t == "scroll" then some ActionType.scroll
  else if t == "highlight" then some ActionType.highlight
  else none

/-- A fresh result record: `success := true`, `action := type`, all other
fields absent. -/
def baseResult (type : String) : ActionResult :=
  ⟨true, type, none, none, none, none, none⟩

/-- `performAction`: returns the thrown error or the result record,
together with the trace of page operations performed and the page model
afterwards. -/
def performAction (page : PageModel) (params : ActionParams) :
    Except String ActionResult × List PageOp × PageModel :=
  let r0 := baseResult params.type
  match parseActionType params.type with
  | some ActionType.navigate =>
      if strTruthy params.url then
        let u := params.url.getD ""
        let page1 : PageModel := { page with url := u }
        (Except.ok { r0 with url := some page1.url, title := some page1.title },
         [PageOp.goto u], page1)
      else (Except.error "navigate requires url parameter", [], page)
  | some ActionType.back =>
      (Except.ok { r0 with url := some page.url, title := some page.title },
       [PageOp.goBack], page)
  | some ActionType.forward =>
      (Except.ok { r0 with url := some page.url, title := some page.title },
       [PageOp.goForward], page)
  | some ActionType.click =>
      if strTruthy params.selector then
        let s := params.selector.getD ""
        (Except.ok { r0 with url := some page.url },
         [PageOp.click s, PageOp.waitForLoadState], page)
      else (Except.error "click requires selector parameter", [], page)
  | some ActionType.fill =>
      if strTruthy params.selector then
        match params.value with
        | none => (Except.error "fill requires value parameter", [], page)
        | some v =>
            let s := params.selector.getD ""
            (Except.ok { r0 with selector := some s },
             [PageOp.fill s v], page)
      else (Except.error "fill requires selector parameter", [], page)
  | some ActionType.select =>
      if strTruthy params.selector then
        match params.value with
        | none => (Except.error "select requires value parameter", [], page)
        | some v =>
            let s := params.selector.getD ""
            (Except.ok { r0 with selector := some s },
             [PageOp.selectOption s v], page)
      else (Except.error "select requires selector parameter", [], page)
  | some ActionType.check =>
      if strTruthy params.selector then
        let s := params.selector.getD ""
        (Except.ok { r0 with selector := some s }, [PageOp.check s], page)
      else (Except.error "check requires selector parameter", [], page)
  | some ActionType.uncheck =>
      if strTruthy params.selector then
        let s := params.selector.getD ""
        (Except.ok { r0 with selector := some s }, [PageOp.uncheck s], page)
      else (Except.error "uncheck requires selector parameter", [], page)
  | some ActionType.press =>
      if !(strTruthy params.selector) && !(strTruthy params.value) then
        (Except.error "press requires selector or value (key) parameter",
         [], page)
      else if strTruthy params.selector then
        let s := params.selector.getD ""
        let key := if strTruthy params.value then params.value.getD ""
          else "Enter"
        (Except.ok { r0 with url := some page.url },
         [PageOp.press s key, PageOp.waitForLoadState], page)
      else
        (Except.ok { r0 with url := some page.url },
         [PageOp.keyboardPress (params.value.getD ""), PageOp.waitForLoadState],
         page)
  | some ActionType.scroll =>
      let direction := if strTruthy params.value then params.value.getD ""
        else "down"
      let ops := if strTruthy params.selector then
          [PageOp.scrollBy (some (params.selector.getD "")) direction]
        else [PageOp.scrollBy none direction]
      (Except.ok { r0 with direction := some direction }, ops, page)
  | some ActionType.highlight =>
      if strTruthy params.selector then
        let s := params.selector.getD ""
        (Except.ok { r0 with selector := some s }, [PageOp.highlight s], page)
      else (Except.error "highlight requires selector parameter", [], page)
  | none =>
      (Except.error ("Unknown action type: " ++ params.type), [], page)

/-- Claim C8: every missing-required-parameter case (url for navigate;
selector for click/fill/select/check/uncheck/highlight; value for
fill/select; selector and value both absent for press) and every unknown
action type throws a descriptive error with no page operation performed and
the page unchanged. -/
theorem action_validation_fail_fast (page : PageModel)
    (sel value u : Option String) (t : String) :
    (strTruthy u = false →
      performAction page ⟨"navigate", sel, value, u⟩
        = (Except.error "navigate requires url parameter", [], page)) ∧
    (strTruthy sel = false →
      performAction page ⟨"click", sel, value, u⟩
        = (Except.error "click requires selector parameter", [], page) ∧
      performAction page ⟨"fill", sel, value, u⟩
        = (Except.error "fill requires selector parameter", [], page) ∧
      performAction page ⟨"select", sel, value, u⟩
        = (Except.error "select requires selector parameter", [], page) ∧
      performAction page ⟨"check", sel, value, u⟩
        = (Except.error "check requires selector parameter", [], page) ∧
      performAction page ⟨"uncheck", sel, value, u⟩
        = (Except.error "uncheck requires selector parameter", [], page) ∧
      performAction page ⟨"highlight", sel, value, u⟩
        = (Except.error "highlight requires selector parameter", [], page)) ∧
    (strTruthy sel = true →
      performAction page ⟨"fill", sel, none, u⟩
        = (Except.error "fill requires value parameter", [], page) ∧
      performAction page ⟨"select", sel, none, u⟩
        = (Except.error "select requires value parameter", [], page)) ∧
    (strTruthy sel = false → strTruthy value = false →
      performAction page ⟨"press", sel, value, u⟩
        = (Except.error "press requires selector or value (key) parameter",
           [], page)) ∧
    (parseActionType t = none →
      performAction page ⟨t, sel, value, u⟩
        = (Except.error ("Unknown action type: " ++ t), [], page)) := by
  refine ⟨?_, ?_, ?_, ?_, ?_⟩
  · intro h
    simp [performAction, parseActionType, h]
  · intro h
    refine ⟨?_, ?_, ?_, ?_, ?_, ?_⟩ <;> simp [performAction, parseActionType, h]
  · intro h
    exact ⟨by simp [performAction, parseActionType, h],
           by simp [performAction, parseActionType, h]⟩
  · intro hs hv
    simp [performAction, parseActionType, hs, hv]
  · intro h
    simp [performAction, h]

/-- Witness for C8: concrete invalid invocations all fail fast with the
page untouched. -/
theorem action_validation_fail_fast_witness :
    performAction ⟨"https://x.example", "T"⟩ ⟨"navigate", none, none, none⟩
      = (Except.error "navigate requires url parameter", [],
         ⟨"https://x.example", "T"⟩) ∧
    performAction ⟨"https://x.example", "T"⟩ ⟨"fill", none, none, none⟩
      = (Except.error "fill requires selector parameter", [],
         ⟨"https://x.example", "T"⟩) ∧
    performAction ⟨"https://x.example", "T"⟩ ⟨"fill", some "#q", none, none⟩
      = (Except.error "fill requires value parameter", [],
         ⟨"https://x.example", "T"⟩) ∧
    performAction ⟨"https://x.example", "T"⟩ ⟨"teleport", none, none, none⟩
      = (Except.error "Unknown action type: teleport", [],
         ⟨"https://x.example", "T"⟩) := by
  have h := action_validation_fail_fast ⟨"https://x.example", "T"⟩
    none none none "teleport"
  have h2 := action_validation_fail_fast ⟨"https://x.example", "T"⟩
    (some "#q") none none "teleport"
  exact ⟨h.1 (by decide), (h.2.1 (by decide)).2.1,
         (h2.2.2.1 (by decide)).1, h.2.2.2.2 (by decide)⟩

/-- Counterexample for C9 as stated: with selector AND value both omitted,
the claim says the key "Enter" is sent globally to the page; the code
instead throws before any page operation, so no key press (in particular no
global "Enter") ever reaches the page. -/
theorem press_default_global_cex :
    performAction ⟨"https://x.example", "T"⟩ ⟨"press", none, none, none⟩
      = (Except.error "press requires selector or value (key) parameter", [],
         ⟨"https://x.example", "T"⟩) ∧
    ¬ PageOp.keyboardPress "Enter"
        ∈ (performAction ⟨"https://x.example", "T"⟩
            ⟨"press", none, none, none⟩).2.1 :=
  ⟨rfl, by decide⟩

/-- Claim C9 (amended): with a selector given, the key sent to that element
is the given value, defaulting to "Enter" when the value is omitted (or
empty); with the selector omitted, a value is REQUIRED — it is used as the
key name sent globally to the page, and when it too is omitted the action
throws before touching the page instead of defaulting to "Enter".  In the
two successful cases the action then best-effort waits for navigation
settling and reports the resulting URL. -/
theorem press_key_semantics (page : PageModel) (s v : String)
    (value u : Option String) :
    (strTruthy (some s) = true →
      performAction page ⟨"press", some s, value, u⟩
        = (Except.ok { baseResult "press" with url := some page.url },
           [PageOp.press s
              (if strTruthy value then value.getD "" else "Enter"),
            PageOp.waitForLoadState], page)) ∧
    (strTruthy (some v) = true →
      performAction page ⟨"press", none, some v, u⟩
        = (Except.ok { baseResult "press" with url := some page.url },
           [PageOp.keyboardPress v, PageOp.waitForLoadState], page)) ∧
    (performAction page ⟨"press", none, none, u⟩
        = (Except.error "press requires selector or value (key) parameter",
           [], page)) := by
  refine ⟨?_, ?_, ?_⟩
  · intro h
    simp [performAction, parseActionType, h]
  · intro h
    have hv : ¬ v = "" := by simpa [strTruthy] using h
    simp [performAction, parseActionType, strTruthy, hv]
  · simp [performAction, parseActionType, strTruthy]

/-- Witness for C9 at concrete invocations: a targeted press with no value
sends "Enter" to the element, a global press sends the given value as key,
and both wait for settling and report the page url. -/
theorem press_key_semantics_witness :
    performAction ⟨"https://x.example", "T"⟩ ⟨"press", some "#q", none, none⟩
      = (Except.ok { baseResult "press" with url := some "https://x.example" },
         [PageOp.press "#q" "Enter", PageOp.waitForLoadState],
         ⟨"https://x.example", "T"⟩) ∧
    performAction ⟨"https://x.example", "T"⟩ ⟨"press", none, some "a", none⟩
      = (Except.ok { baseResult "press" with url := some "https://x.example" },
         [PageOp.keyboardPress "a", PageOp.waitForLoadState],
         ⟨"https://x.example", "T"⟩) := by
  have h := press_key_semantics ⟨"https://x.example", "T"⟩ "#q" "a" none none
  exact ⟨h.1 (by decide), h.2.1 (by decide)⟩

/-! ### The describe tool handler (src/tools/describe.ts)

Only the control flow up to the session lookup is modelled; the
screenshot/vision path performs external I/O and is abstracted as
`proceeded := true`.  `configured` stands for `isConfigured()` (whether any
vision provider has an API key).  The session-not-found message follows the
source with the quotes around the name dropped. -/

def visionNotConfiguredMsg : String :=
  "Vision not configured. Set OPENAI_API_KEY or ANTHROPIC_API_KEY environment variable."

structure DescribeResponse where
  success : Option Bool
  description : Option String
  error : Option String
  availableSessions : Option (List String)
  proceeded : Bool
deriving DecidableEq

/-- The describe tool `handler`: the vision-configuration check runs first,
then the session lookup, then the (abstracted) screenshot and vision call. -/
def describeHandler (configured : Bool) (sessionNames : List String)
    (sessionId : String) : DescribeResponse :=
  if !configured then
    ⟨some false, none, some visionNotConfiguredMsg, none, false⟩
  else if !(sessionNames.contains sessionId) then
    ⟨none, none, some ("Session " ++ sessionId ++ " not found"),
     some sessionNames, false⟩
  else
    ⟨none, none, none, none, true⟩

/-- Claim C10: when no vision provider is configured, the describe handler
returns the configuration error with `success = false` before ever looking
at the session — for every session name, including names that do not exist —
and that response carries no list of available sessions. -/
theorem describe_config_checked_first (sessionNames : List String)
    (sessionId : String) :
    describeHandler false sessionNames sessionId
      = ⟨some false, none, some visionNotConfiguredMsg, none, false⟩ := by
  simp [describeHandler]

end BrowserMcp
